import Mathlib

/-!
Verification development for the LLM request-orchestration client
(`src/services/llm` module and `src/core/config.js`).

The JavaScript source is embedded shallowly:

* JS strings are `String` / `List Char`; `null`/`undefined` string values are
  `Option String` with `none` for the missing value (both `null` and
  `undefined` are falsy, as is the empty string).
* The mutable service state (`currentKeyIndex`, `exhaustedKeys`,
  `models.length`) is an explicit record `GeminiPool` threaded through the
  operations.
* Network calls are oracles (`Nat → Except JsError String`) indexed by the
  attempt (resp. invocation) number; the orchestration loop is a function of
  those oracles.
* JS regular expressions are embedded as abstract syntax (`RE`) together with
  a backtracking matcher whose alternative/lazy/greedy ordering follows the
  ECMAScript semantics; every pattern from the source is transcribed
  node-by-node next to a comment showing the original literal.
-/

/-! ### Basic JS string primitives -/

/-- JS `String.prototype.toLowerCase` (ASCII range, which is all the source
uses in its comparisons). -/
def jsToLower (s : String) : String := String.mk (s.toList.map Char.toLower)

/-- Does the list start with the given pattern? -/
def listStartsWith : List Char → List Char → Bool
  | _, [] => true
  | [], _ :: _ => false
  | c :: cs, d :: ds => c = d && listStartsWith cs ds

/-- Does the list contain the pattern as a contiguous sublist? -/
def listHasSub : List Char → List Char → Bool
  | [], sub => sub.isEmpty
  | c :: cs, sub => listStartsWith (c :: cs) sub || listHasSub cs sub

/-- JS `String.prototype.includes(sub)`. -/
def jsIncludes (s sub : String) : Bool := listHasSub s.toList sub.toList

/-- JS whitespace for `trim` / `\s` (the ASCII part: space, tab, LF, CR,
vertical tab, form feed). -/
def jsWhitespace (c : Char) : Bool :=
  c = ' ' || c = '\t' || c = '\n' || c = '\r' || c = Char.ofNat 11 || c = Char.ofNat 12

/-- JS `String.prototype.trim` on `List Char`. -/
def jsTrimChars (l : List Char) : List Char :=
  ((l.dropWhile jsWhitespace).reverse.dropWhile jsWhitespace).reverse

/-- JS `String.prototype.trim`. -/
def jsTrim (s : String) : String := String.mk (jsTrimChars s.toList)

/-- Truthiness of a JS string value (`null`/`undefined`/`''` are falsy). -/
def jsTruthyStr (s : Option String) : Bool :=
  match s with
  | none => false
  | some v => !v.toList.isEmpty

/-! ### Error classifier (`analyzeError`)

A JS failure object, as consumed by `analyzeError`: it reads
`error.message`, `error.toString()` and (in the quota check of
`executeRequest`) `error.status`. -/

structure JsError where
  message : String
  status : Option Nat := none
  toStr : String := ""
  deriving Repr, DecidableEq

/-- A plain `new Error(msg)` (whose `toString()` is `"Error: " ++ msg`). -/
def mkJsError (msg : String) : JsError :=
  { message := msg, status := none, toStr := "Error: " ++ msg }

inductive GeminiErrorType where
  | NETWORK_ERROR
  | AUTH_ERROR
  | RATE_LIMIT_ERROR
  | TIMEOUT_ERROR
  | SERVER_ERROR
  | INVALID_REQUEST_ERROR
  | UNKNOWN_ERROR
  deriving Repr, DecidableEq

open GeminiErrorType

structure ErrorInfo where
  type : GeminiErrorType
  isNetworkError : Bool
  isRetryable : Bool
  suggestedAction : String
  deriving Repr, DecidableEq

/-- `llmService.analyzeError(error)` — the pure error classifier.  Each branch
is transcribed from the `if`-chain of the source in order. -/
def analyzeError (error : JsError) : ErrorInfo :=
  let errorMessage := jsToLower error.message
  let errorString := jsToLower error.toStr
  -- Network connectivity errors
  if jsIncludes errorMessage "fetch failed" ||
      jsIncludes errorMessage "network error" ||
      jsIncludes errorMessage "enotfound" ||
      jsIncludes errorMessage "econnrefused" ||
      jsIncludes errorMessage "econnreset" ||
      jsIncludes errorMessage "econnaborted" ||
      jsIncludes errorMessage "socket hang up" ||
      jsIncludes errorMessage "connection reset" ||
      jsIncludes errorString "fetch failed" then
    { type := NETWORK_ERROR, isNetworkError := true, isRetryable := true,
      suggestedAction := "Check internet connection and firewall settings" }
  -- API key errors (not retryable)
  else if jsIncludes errorMessage "unauthorized" ||
      jsIncludes errorMessage "invalid api key" ||
      jsIncludes errorMessage "forbidden" ||
      jsIncludes errorMessage "401" ||
      jsIncludes errorMessage "403" then
    { type := AUTH_ERROR, isNetworkError := false, isRetryable := false,
      suggestedAction := "Verify Gemini API key configuration" }
  -- Rate limiting (retryable with backoff)
  else if jsIncludes errorMessage "quota" ||
      jsIncludes errorMessage "rate limit" ||
      jsIncludes errorMessage "too many requests" ||
      jsIncludes errorMessage "429" ||
      jsIncludes errorMessage "resource exhausted" then
    { type := RATE_LIMIT_ERROR, isNetworkError := false, isRetryable := true,
      suggestedAction := "Wait before retrying or check API quota" }
  -- Timeout errors (retryable)
  else if jsIncludes errorMessage "request timeout" ||
      jsIncludes errorMessage "timeout" ||
      jsIncludes errorMessage "timed out" then
    { type := TIMEOUT_ERROR, isNetworkError := true, isRetryable := true,
      suggestedAction := "Check network latency or increase timeout" }
  -- Server errors (retryable)
  else if jsIncludes errorMessage "500" ||
      jsIncludes errorMessage "502" ||
      jsIncludes errorMessage "503" ||
      jsIncludes errorMessage "504" ||
      jsIncludes errorMessage "internal server error" ||
      jsIncludes errorMessage "bad gateway" ||
      jsIncludes errorMessage "service unavailable" then
    { type := SERVER_ERROR, isNetworkError := false, isRetryable := true,
      suggestedAction := "Server error - will retry automatically" }
  -- Invalid request errors (not retryable)
  else if jsIncludes errorMessage "400" ||
      jsIncludes errorMessage "bad request" ||
      jsIncludes errorMessage "invalid request" then
    { type := INVALID_REQUEST_ERROR, isNetworkError := false, isRetryable := false,
      suggestedAction := "Check request format and parameters" }
  else
    { type := UNKNOWN_ERROR, isNetworkError := false, isRetryable := true,
      suggestedAction := "Check logs for more details" }

/-! ### Credential pool (`this.models` / `this.currentKeyIndex` / `this.exhaustedKeys`)

`models` itself is opaque (`models[i]` is determined by `i`), so the pool
state is its length together with the rotation index and the exhausted set;
`getNextModel` returns the index of the chosen model. -/

structure GeminiPool where
  numModels : Nat
  currentKeyIndex : Nat
  exhaustedKeys : Finset Nat
  deriving DecidableEq

/-- The `while (attempts < this.models.length)` search of `getNextModel`,
with the remaining permitted loop iterations as fuel (the source counts
`attempts` up to `models.length`). Falling out of the loop performs the
full reset of the source (clear `exhaustedKeys`, restart at index 0). -/
def getNextModelLoop : Nat → GeminiPool → Option Nat × GeminiPool
  | 0, s =>
    -- All keys exhausted, reset and try first one
    (some 0, { s with exhaustedKeys := ∅, currentKeyIndex := 0 })
  | fuel + 1, s =>
    if s.currentKeyIndex ∉ s.exhaustedKeys then
      (some s.currentKeyIndex, s)
    else
      -- Move to next key
      getNextModelLoop fuel
        { s with currentKeyIndex := (s.currentKeyIndex + 1) % s.numModels }

/-- `llmService.getNextModel()` — returns the chosen model index (or `none`
when no client was initialized) together with the updated pool state. -/
def getNextModel (s : GeminiPool) : Option Nat × GeminiPool :=
  if s.numModels = 0 then
    (none, s)
  -- If we only have one model, use it
  else if s.numModels = 1 then
    (some 0, s)
  else
    getNextModelLoop s.numModels s

/-- `llmService.markKeyExhausted(keyIndex)`. -/
def markKeyExhausted (keyIndex : Nat) (s : GeminiPool) : GeminiPool :=
  { s with exhaustedKeys := insert keyIndex s.exhaustedKeys,
           currentKeyIndex := (s.currentKeyIndex + 1) % s.numModels }

/-! ### Backoff delay (`executeRequest`, retry path)

JS numbers are modelled as `ℚ`; at the magnitudes involved (≤ 11000 with a
fractional jitter) IEEE doubles are exact for these operations. -/

/-- `const baseDelay = errorInfo.isNetworkError ? 2000 : 1000;` -/
def backoffBaseDelay (isNetworkError : Bool) : ℚ :=
  if isNetworkError then 2000 else 1000

/-- `const exponentialDelay = baseDelay * Math.pow(2, attempt - 1);` -/
def backoffExponentialDelay (isNetworkError : Bool) (attempt : Nat) : ℚ :=
  backoffBaseDelay isNetworkError * 2 ^ (attempt - 1)

/-- `const delay = Math.min(exponentialDelay + jitter, 10000);` with
`jitter = Math.random() * 1000` left as a parameter. -/
def backoffDelay (isNetworkError : Bool) (attempt : Nat) (jitter : ℚ) : ℚ :=
  min (backoffExponentialDelay isNetworkError attempt + jitter) 10000

/-! ### Retry/fallback orchestrator (`executeRequest`)

The loop is a function of two oracles: `native attempt` is the outcome of the
`currentModel.generateContent` race of outer attempt `attempt` (`.ok s` means
`result.response.text()` returned `s`; a missing `result`/`result.response`
is the thrown `Empty response from Gemini API` error), and `alt k` is the
outcome of the `k`-th invocation of `executeAlternativeRequest` (whose
internal pool mutations are not modelled here; no reachable branch of the
claims consults it). `performPreflightCheck` catches its own failures and is
a no-op for the control flow. `jitter attempt` stands for
`Math.random() * 1000` in the backoff computation. -/

/-- In the source, `const currentKeyIndex` is declared *inside* the `try`
block of `executeRequest`; the `catch` block references the identifier via
`typeof currentKeyIndex !== 'undefined'`, but there the `const` is out of
scope, so `typeof` evaluates to `'undefined'` and the test is always false.
This constant embeds that fact. -/
def typeofCurrentKeyIndexInCatch : Bool := false

instance exceptDecEq {α β : Type} [DecidableEq α] [DecidableEq β] :
    DecidableEq (Except α β) := fun a b =>
  match a, b with
  | Except.ok x, Except.ok y =>
    if h : x = y then isTrue (by rw [h]) else isFalse (by simp [h])
  | Except.error x, Except.error y =>
    if h : x = y then isTrue (by rw [h]) else isFalse (by simp [h])
  | Except.ok _, Except.error _ => isFalse (by simp)
  | Except.error _, Except.ok _ => isFalse (by simp)

structure ExecConfig where
  maxRetries : Nat
  enableFallbackMethod : Bool
  deriving DecidableEq

/-- Trace of one `executeRequest` run: the returned text or thrown terminal
error message, the final pool state, how many native (`generateContent`)
attempts ran, how many `executeAlternativeRequest` invocations were made, and
the backoff delays slept. -/
structure ExecTrace where
  result : Except String String
  pool : GeminiPool
  nativeCalls : Nat
  altCalls : Nat
  delays : List ℚ
  deriving DecidableEq

/-- One-based `for (let attempt = 1; attempt <= maxRetries; attempt++)` loop
of `executeRequest`, with `fuel = maxRetries + 1 - attempt` remaining
iterations. Each iteration:
selects a model via `getNextModel`, runs the native transport, and on failure
executes the `catch` block: quota branch (dead: its guard contains
`typeofCurrentKeyIndexInCatch`), non-retryable abort, HTTPS fallback for
network errors on the first two attempts, last-attempt terminal error, or
backoff and loop. -/
def executeRequestLoop (cfg : ExecConfig) (native : Nat → Except JsError String)
    (alt : Nat → Except JsError String) (jitter : Nat → ℚ) :
    Nat → Nat → GeminiPool → Nat → Nat → List ℚ → Option JsError → ExecTrace
  | 0, _, pool, nativeCalls, altCalls, delays, lastError =>
    -- fell out of the loop (line `Gemini API failed after ... attempts`)
    { result := Except.error ("Gemini API failed after " ++ toString cfg.maxRetries ++
        " attempts: " ++ ((lastError.map JsError.message).getD "Unknown error")),
      pool := pool, nativeCalls := nativeCalls, altCalls := altCalls, delays := delays }
  | fuel + 1, attempt, pool, nativeCalls, altCalls, delays, _ =>
    let step := getNextModel pool
    let pool1 := step.2
    let tryOutcome : Except JsError String × Nat :=
      match step.1 with
      | none =>
        -- `throw new Error('No available Gemini models')` (inside the try)
        (Except.error (mkJsError "No available Gemini models"), nativeCalls)
      | some _ =>
        match native attempt with
        | Except.ok responseText =>
          -- `!responseText || ... || responseText.trim().length === 0`
          if jsTrim responseText = "" then
            (Except.error (mkJsError "Empty text content in Gemini response"), nativeCalls + 1)
          else
            (Except.ok (jsTrim responseText), nativeCalls + 1)
        | Except.error e => (Except.error e, nativeCalls + 1)
    match tryOutcome with
    | (Except.ok s, nc) =>
      { result := Except.ok s, pool := pool1, nativeCalls := nc,
        altCalls := altCalls, delays := delays }
    | (Except.error e, nc) =>
      -- the catch block
      let errorInfo := analyzeError e
      let errorMessage := jsToLower e.message
      let isQuotaError := errorInfo.type == RATE_LIMIT_ERROR ||
          jsIncludes errorMessage "quota" ||
          jsIncludes errorMessage "rate limit" ||
          jsIncludes errorMessage "429" ||
          e.status == some 429
      -- `if (isQuotaError && typeof currentKeyIndex !== 'undefined' && this.models.length > 1)`
      -- (dead: the middle conjunct is the out-of-scope reference)
      let quota :=
        if isQuotaError && typeofCurrentKeyIndexInCatch && decide (1 < pool1.numModels) then
          -- in the model the tried index is available (in JS it is not — hence the dead guard)
          let pool2 := markKeyExhausted ((step.1).getD pool1.currentKeyIndex) pool1
          (pool2, decide (pool2.exhaustedKeys.card < pool2.numModels))
        else (pool1, false)
      if quota.2 then
        -- `continue` (the `for` update still increments `attempt`)
        executeRequestLoop cfg native alt jitter fuel (attempt + 1) quota.1
          nc altCalls delays (some e)
      else
      -- `if (errorInfo.isRetryable === false)` — abort immediately
      if errorInfo.isRetryable == false then
        { result := Except.error ("Gemini API error (non-retryable): " ++ e.message),
          pool := quota.1, nativeCalls := nc, altCalls := altCalls, delays := delays }
      else
      -- alternative HTTPS transport for network errors on the first two attempts
      let fallbackStep : Option String × Nat :=
        if errorInfo.type == NETWORK_ERROR && cfg.enableFallbackMethod &&
            decide (attempt ≤ 2) then
          match alt altCalls with
          | Except.ok fallbackResponse => (some fallbackResponse, altCalls + 1)
          | Except.error _ =>
            -- next-key sub-branch: guard `this.models.length > 1 &&
            -- typeof currentKeyIndex !== 'undefined'` is dead; its interior
            -- (one more `executeAlternativeRequest` call) is unreachable
            (none, altCalls + 1)
        else (none, altCalls)
      match fallbackStep with
      | (some s, ac) =>
        { result := Except.ok s, pool := quota.1, nativeCalls := nc,
          altCalls := ac, delays := delays }
      | (none, ac) =>
      if attempt == cfg.maxRetries then
        -- last-attempt next-key branch: guard `this.models.length > 1 &&
        -- typeof currentKeyIndex !== 'undefined'` is dead, so the loop throws
        { result := Except.error ("Gemini API failed after " ++ toString cfg.maxRetries ++
            " attempts: " ++ e.message),
          pool := quota.1, nativeCalls := nc, altCalls := ac, delays := delays }
      else
        let d := backoffDelay errorInfo.isNetworkError attempt (jitter attempt)
        executeRequestLoop cfg native alt jitter fuel (attempt + 1) quota.1
          nc ac (delays ++ [d]) (some e)

/-- `llmService.executeRequest(geminiRequest)`. -/
def executeRequest (cfg : ExecConfig) (native : Nat → Except JsError String)
    (alt : Nat → Except JsError String) (jitter : Nat → ℚ)
    (pool : GeminiPool) : ExecTrace :=
  executeRequestLoop cfg native alt jitter cfg.maxRetries 1 pool 0 0 [] none

/-! ### Credential list parsing (`config.getApiKeys`) -/

/-- JS `String.prototype.split` against a single-character class
(`/[,\n]/`): every separator occurrence ends a segment, and empty segments
are kept. The result is always nonempty. -/
def jsSplitChars (sep : Char → Bool) : List Char → List (List Char)
  | [] => [[]]
  | c :: cs =>
    match jsSplitChars sep cs with
    | [] => [[]]
    | g :: gs => if sep c then [] :: g :: gs else (c :: g) :: gs

/-- `config.getApiKeys(service)` as a function of the raw environment value
(`process.env[`SERVICE`_API_KEY]`, `none` when unset): split on commas and
newlines, trim each entry, drop empty entries and the placeholder. -/
def getApiKeys (apiKeyValue : Option String) : List String :=
  match apiKeyValue with
  | none => []
  | some v =>
    -- `if (!apiKeyValue) return [];` (the empty string is falsy)
    if v.toList.isEmpty then []
    else
      ((((jsSplitChars (fun c => c = ',' || c = '\n') v.toList).map
          jsTrimChars).filter
        (fun key => decide (0 < key.length) &&
          !(key == "your-api-key-here".toList))).map String.mk)

/-! ### Raw-transport response validation (`_makeAlternativeRequest`,
`res.on('end')` handler, HTTP 200 path after `JSON.parse`) -/

structure GeminiWireError where
  code : Option Nat := none
  message : Option String := none
  /-- `JSON.stringify(response.error)`, used when `message` is falsy. -/
  stringified : String := ""
  deriving Repr, DecidableEq

structure GeminiWirePart where
  text : Option String := none
  deriving Repr, DecidableEq

structure GeminiWireContent where
  parts : Option (List (Option GeminiWirePart)) := none
  deriving Repr, DecidableEq

structure GeminiWireCandidate where
  content : Option GeminiWireContent := none
  finishReason : Option String := none
  deriving Repr, DecidableEq

structure GeminiUsageMetadata where
  promptTokenCount : Option Nat := none
  totalTokenCount : Option Nat := none
  thoughtsTokenCount : Option Nat := none
  deriving Repr, DecidableEq

structure GeminiWireResponse where
  error : Option GeminiWireError := none
  candidates : Option (List GeminiWireCandidate) := none
  usageMetadata : Option GeminiUsageMetadata := none
  deriving Repr, DecidableEq

/-- The response-validation chain of `_makeAlternativeRequest` (from the
`response.error` check to `resolve(text.trim())`): each nesting level is
checked before descending; a `finishReason` of `MAX_TOKENS` with a missing or
empty `parts` array is the distinct truncation failure carrying the token
accounting from `usageMetadata`.  JS arrays that are missing or not arrays
are `none`; a `null` element of `parts` is `none`; a falsy `text` (missing
or `''`) fails the `!firstPart.text` check. -/
def _makeAlternativeRequestParse (response : GeminiWireResponse) : Except String String :=
  match response.error with
  | some e => Except.error ("Gemini API error: " ++ (e.message.getD e.stringified))
  | none =>
  match response.candidates with
  | none => Except.error "Invalid response structure: missing candidates array"
  | some [] => Except.error "Invalid response structure: candidates array is empty"
  | some (candidate :: _) =>
    match candidate.content with
    | none => Except.error "Invalid response structure: candidate missing content"
    | some content =>
      if candidate.finishReason == some "MAX_TOKENS" &&
          (content.parts == none || content.parts == some []) then
        let usageInfo := response.usageMetadata.getD {}
        Except.error ("Response truncated: MAX_TOKENS limit reached with no content. Thoughts tokens: " ++
          toString (usageInfo.thoughtsTokenCount.getD 0) ++ ", Total tokens: " ++
          toString (usageInfo.totalTokenCount.getD 0) ++
          ". Consider increasing maxOutputTokens significantly.")
      else
      match content.parts with
      | none => Except.error "Invalid response structure: content missing parts"
      | some [] => Except.error "Invalid response structure: parts array is empty"
      | some (firstPart :: _) =>
        match firstPart with
        | none => Except.error "Invalid response structure: part missing text"
        | some part =>
          match part.text with
          | none => Except.error "Invalid response structure: part missing text"
          | some text =>
            if text = "" then Except.error "Invalid response structure: part missing text"
            else if jsTrim text = "" then
              Except.error "Empty or invalid text content in Gemini response"
            else Except.ok (jsTrim text)

/-! ### Raw-transport payload (`transformRequestForHttpTransport`)

The opaque payloads (`inlineData`, `generationConfig`, `safetySettings`, …)
are a type parameter `α`; the transform copies them through unchanged. -/

structure SrcPart (α : Type) where
  text : Option String := none
  inlineData : Option α := none
  fileData : Option α := none
  deriving Repr, DecidableEq

inductive WirePart (α : Type) where
  /-- `if (!part) return {};` -/
  | emptyPart
  /-- `{ text: part.text }` -/
  | textPart (s : String)
  /-- `{ inline_data: part.inlineData }` -/
  | inlineDataPart (d : α)
  /-- `{ file_data: part.fileData }` -/
  | fileDataPart (d : α)
  /-- `return part;` (no recognized field) -/
  | passthrough (p : SrcPart α)
  deriving Repr, DecidableEq

/-- The `normalizePart` closure of `transformRequestForHttpTransport`,
checking `text`, then `inlineData`, then `fileData`. -/
def normalizePart {α : Type} (part : Option (SrcPart α)) : WirePart α :=
  match part with
  | none => WirePart.emptyPart
  | some p =>
    match p.text with
    | some t => WirePart.textPart t
    | none =>
      match p.inlineData with
      | some d => WirePart.inlineDataPart d
      | none =>
        match p.fileData with
        | some d => WirePart.fileDataPart d
        | none => WirePart.passthrough p

structure SrcSystemInstruction (α : Type) where
  parts : Option (List (Option (SrcPart α))) := none
  deriving Repr, DecidableEq

structure SrcContent (α : Type) where
  role : String
  parts : Option (List (Option (SrcPart α))) := none
  deriving Repr, DecidableEq

structure SrcRequest (α : Type) where
  systemInstruction : Option (SrcSystemInstruction α) := none
  contents : Option (List (SrcContent α)) := none
  generationConfig : Option α := none
  safetySettings : Option α := none
  tools : Option α := none
  toolConfig : Option α := none
  cachedContent : Option α := none
  deriving Repr, DecidableEq

structure WireSystemInstruction (α : Type) where
  parts : List (WirePart α)
  deriving Repr, DecidableEq

structure WireContent (α : Type) where
  role : String
  parts : List (WirePart α)
  deriving Repr, DecidableEq

structure HttpPayload (α : Type) where
  system_instruction : Option (WireSystemInstruction α) := none
  contents : Option (List (WireContent α)) := none
  generation_config : Option α := none
  safety_settings : Option α := none
  tools : Option α := none
  tool_config : Option α := none
  cached_content : Option α := none
  deriving Repr, DecidableEq

/-- One element of `request.contents` mapped to the wire shape
(`{ role: content.role, parts: (content.parts || []).map(normalizePart) }`). -/
def transformContent {α : Type} (content : SrcContent α) : WireContent α :=
  { role := content.role, parts := (content.parts.getD []).map normalizePart }

/-- `llmService.transformRequestForHttpTransport(request)`. -/
def transformRequestForHttpTransport {α : Type} (request : SrcRequest α) :
    HttpPayload α :=
  { system_instruction := request.systemInstruction.map
      (fun si => { parts := (si.parts.getD []).map normalizePart }),
    contents := request.contents.map (fun cs => cs.map transformContent),
    generation_config := request.generationConfig,
    safety_settings := request.safetySettings,
    tools := request.tools,
    tool_config := request.toolConfig,
    cached_content := request.cachedContent }

/-! ### A small ECMAScript-regex semantics

The patterns of `extractMcqAnswer` use character classes, literals,
alternation, bounded lazy/greedy repetition whose body is always a single
character class, capture groups, lookahead, the `^`/`$` anchors (with and
without the `m` flag) and `\b`.  `reMatch` returns every way the node can
match at a position, in ECMAScript preference order (alternatives
left-to-right, lazy repetitions shortest-first, greedy longest-first), so the
head of the list is the match JS produces.  Captures are `(group, start,
stop)` triples, latest assignment first. -/

abbrev Caps := List (Nat × Nat × Nat)

def setCap (n s e : Nat) (caps : Caps) : Caps :=
  (n, s, e) :: caps.filter (fun x => x.1 ≠ n)

inductive RE where
  | eps
  | cls (p : Char → Bool)
  /-- literal, optionally case-insensitive (`i` flag) -/
  | lit (s : List Char) (ci : Bool)
  | cat (a b : RE)
  | alt (a b : RE)
  /-- `p{lo,hi}` / `p{lo,hi}?` over a character class (`hi = none` unbounded) -/
  | rep (p : Char → Bool) (lo : Nat) (hi : Option Nat) (lazyRep : Bool)
  | group (n : Nat) (a : RE)
  /-- lookahead `(?= a)` -/
  | look (a : RE)
  /-- `^` (`multiline`: also after a line feed) -/
  | bol (multiline : Bool)
  /-- `$` (`multiline`: also before a line feed) -/
  | eol (multiline : Bool)
  /-- `\b` -/
  | wordBoundary

/-- JS `\w`. -/
def jsWordChar (c : Char) : Bool := c.isAlpha || c.isDigit || c = '_'

def litMatchesAt (s : List Char) (ci : Bool) (rest : List Char) : Bool :=
  match s, rest with
  | [], _ => true
  | _ :: _, [] => false
  | c :: cs, d :: ds =>
    (if ci then c.toLower = d.toLower else c = d) && litMatchesAt cs ci ds

def reMatch (input : List Char) : RE → Nat → Caps → List (Nat × Caps)
  | RE.eps, pos, caps => [(pos, caps)]
  | RE.cls p, pos, caps =>
    match input.get? pos with
    | some c => if p c then [(pos + 1, caps)] else []
    | none => []
  | RE.lit s ci, pos, caps =>
    if litMatchesAt s ci (input.drop pos) then [(pos + s.length, caps)] else []
  | RE.cat a b, pos, caps =>
    (reMatch input a pos caps).flatMap (fun r => reMatch input b r.1 r.2)
  | RE.alt a b, pos, caps => reMatch input a pos caps ++ reMatch input b pos caps
  | RE.rep p lo hi lazyRep, pos, caps =>
    let maxRun := ((input.drop pos).takeWhile p).length
    let hiEff := match hi with | none => maxRun | some h => min h maxRun
    if lo > hiEff then []
    else
      let ks := (List.range (hiEff - lo + 1)).map (fun k => k + lo)
      (if lazyRep then ks else ks.reverse).map (fun k => (pos + k, caps))
  | RE.group n a, pos, caps =>
    (reMatch input a pos caps).map (fun r => (r.1, setCap n pos r.1 r.2))
  | RE.look a, pos, caps =>
    match reMatch input a pos caps with
    | [] => []
    | r :: _ => [(pos, r.2)]
  | RE.bol m, pos, caps =>
    if pos = 0 || (m && input.get? (pos - 1) == some '\n') then [(pos, caps)] else []
  | RE.eol m, pos, caps =>
    if pos = input.length || (m && input.get? pos == some '\n') then [(pos, caps)] else []
  | RE.wordBoundary, pos, caps =>
    let isW := fun (c : Option Char) => match c with | some c => jsWordChar c | none => false
    let prevW := match pos with | 0 => false | q + 1 => isW (input.get? q)
    if prevW != isW (input.get? pos) then [(pos, caps)] else []

structure MatchRec where
  startPos : Nat
  endPos : Nat
  caps : Caps

/-- Scan start positions `pos, pos+1, …, input.length` (the fuel counts the
remaining start positions) and return the leftmost match. -/
def jsSearchAux (re : RE) (input : List Char) : Nat → Nat → Option MatchRec
  | 0, _ => none
  | f + 1, pos =>
    if pos > input.length then none
    else
      match reMatch input re pos [] with
      | r :: _ => some ⟨pos, r.1, r.2⟩
      | [] => jsSearchAux re input f (pos + 1)

/-- Leftmost match at or after `fromIdx` (the `lastIndex` of a sticky scan). -/
def jsSearch (re : RE) (input : List Char) (fromIdx : Nat) : Option MatchRec :=
  jsSearchAux re input (input.length + 1 - fromIdx) fromIdx

/-- JS `RegExp.prototype.test` (on a fresh regex). -/
def reTest (re : RE) (input : List Char) : Bool := (jsSearch re input 0).isSome

/-- `input.substring(s, e)`. -/
def subSlice (input : List Char) (s e : Nat) : List Char := (input.take e).drop s

/-- The matched text of a capture group (`none` if the group did not
participate). -/
def capText (input : List Char) (m : MatchRec) (n : Nat) : Option (List Char) :=
  (m.caps.find? (fun x => x.1 = n)).map (fun x => subSlice input x.2.1 x.2.2)

/-- All matches of a global regex: repeat the leftmost search, restarting
after each match (one past it when the match was empty).  Since the restart
index strictly increases, `input.length + 2` iterations always suffice. -/
def jsMatchAllAux (re : RE) (input : List Char) : Nat → Nat → List MatchRec
  | 0, _ => []
  | f + 1, i =>
    match jsSearch re input i with
    | none => []
    | some m =>
      m :: jsMatchAllAux re input f
        (if m.endPos > m.startPos then m.endPos else m.endPos + 1)

/-- JS `String.prototype.matchAll` (global regex). -/
def jsMatchAll (re : RE) (input : List Char) : List MatchRec :=
  jsMatchAllAux re input (input.length + 2) 0

/-- JS `String.prototype.match` with a global regex: the full matched
texts. -/
def gMatchTexts (re : RE) (input : List Char) : List (List Char) :=
  (jsMatchAll re input).map (fun m => subSlice input m.startPos m.endPos)

/-- Stitch replacements into `input`: the text before each match, then its
replacement, then continue after it. -/
def jsReplaceMatchesAux (input : List Char) (repl : MatchRec → List Char) :
    Nat → List MatchRec → List Char
  | cursor, [] => input.drop cursor
  | cursor, m :: rest =>
    subSlice input cursor m.startPos ++ repl m ++
      jsReplaceMatchesAux input repl m.endPos rest

/-- JS `String.prototype.replace` with a global regex. -/
def jsReplaceAll (re : RE) (input : List Char) (repl : MatchRec → List Char) :
    List Char :=
  jsReplaceMatchesAux input repl 0 (jsMatchAll re input)

/-- JS `String.prototype.replace` with a non-global regex (first match
only). -/
def jsReplaceFirst (re : RE) (input : List Char) (repl : MatchRec → List Char) :
    List Char :=
  match jsSearch re input 0 with
  | none => input
  | some m => jsReplaceMatchesAux input repl 0 [m]

/-- First `some` produced by `f` along the list. -/
def firstSome {α β : Type} (f : α → Option β) : List α → Option β
  | [] => none
  | a :: rest =>
    match f a with
    | some b => some b
    | none => firstSome f rest

/-! ### Character classes and pattern builders for `extractMcqAnswer` -/

def backtickChar : Char := Char.ofNat 96
def braceOpenChar : Char := Char.ofNat 123
def braceCloseChar : Char := Char.ofNat 125
def bulletDotChar : Char := Char.ofNat 8226

def inCharRange (lo hi c : Char) : Bool := lo.toNat ≤ c.toNat && c.toNat ≤ hi.toNat

/-- `[A-E]` (a pattern without the `i` flag). -/
def upperAtoE (c : Char) : Bool := inCharRange 'A' 'E' c
/-- `[a-eA-E]`, and also `[A-E]` under the `i` flag. -/
def letterAtoE (c : Char) : Bool := inCharRange 'a' 'e' c || inCharRange 'A' 'E' c
/-- `[A-Z]` (no `i` flag). -/
def upperAZ (c : Char) : Bool := inCharRange 'A' 'Z' c
/-- `[A-Z]` or `[a-z]` under the `i` flag. -/
def asciiAlpha (c : Char) : Bool := inCharRange 'A' 'Z' c || inCharRange 'a' 'z' c
/-- `[\)\.]` / `[\).]`. -/
def parenOrDot (c : Char) : Bool := c = ')' || c = '.'
/-- `.` (not a line terminator). -/
def dotNoNewline (c : Char) : Bool :=
  !(c = '\n' || c = '\r' || c.toNat = 8232 || c.toNat = 8233)
/-- `[\s\S]` / `[^]`. -/
def anyChar (_ : Char) : Bool := true
/-- `[^\n]`. -/
def notNewline (c : Char) : Bool := c ≠ '\n'
/-- `[^`]` (inline-code body). -/
def notBacktick (c : Char) : Bool := c ≠ backtickChar
/-- `[\s:]`. -/
def wsOrColon (c : Char) : Bool := jsWhitespace c || c = ':'
/-- `[•\-\*]`. -/
def bulletChar (c : Char) : Bool := c = bulletDotChar || c = '-' || c = '*'
/-- `[\.;,\s]`. -/
def trailPunct (c : Char) : Bool := c = '.' || c = ';' || c = ',' || jsWhitespace c
/-- `[=+\-*\/<>()\[\]{};]` — the code-syntax detector. -/
def codeSyntaxChar (c : Char) : Bool :=
  c = '=' || c = '+' || c = '-' || c = '*' || c = '/' || c = '<' || c = '>' ||
  c = '(' || c = ')' || c = '[' || c = ']' || c = braceOpenChar ||
  c = braceCloseChar || c = ';'
/-- `[${letterUpper}${letterLower}]` for the extracted answer letter. -/
def letterClassFor (letterUpper : Char) (c : Char) : Bool :=
  c = letterUpper || c = letterUpper.toLower
/-- `[^${letterUpper}${letterLower}]`. -/
def notLetterFor (letterUpper : Char) (c : Char) : Bool :=
  !(letterClassFor letterUpper c)
/-- `\n` as a class. -/
def nlChar (c : Char) : Bool := c = '\n'

def reSeq (l : List RE) : RE := l.foldr RE.cat RE.eps

def reAlts : List RE → RE
  | [] => RE.eps
  | [r] => r
  | r :: rest => RE.alt r (reAlts rest)

def reLit (s : String) (ci : Bool) : RE := RE.lit s.toList ci

/-- `p*` / `p*?`. -/
def reStar (p : Char → Bool) (lazyRep : Bool) : RE := RE.rep p 0 none lazyRep
/-- `p+` / `p+?`. -/
def rePlus (p : Char → Bool) (lazyRep : Bool) : RE := RE.rep p 1 none lazyRep
/-- `p?` (greedy). -/
def reOpt (p : Char → Bool) : RE := RE.rep p 0 (some 1) false

/-- ```` ``` ```` — a literal fence. -/
def fenceRE : RE := RE.lit [backtickChar, backtickChar, backtickChar] false

/-! ### `extractMcqAnswer` — the coding-problem and MCQ detectors -/

/-- The `codingProblemIndicators` array (all patterns carry the `i` flag). -/
def codingProblemIndicators : List RE :=
  [ -- /class\s+\w+\s*\{/i
    reSeq [reLit "class" true, rePlus jsWhitespace false, rePlus jsWordChar false,
      reStar jsWhitespace false, RE.cls (fun c => c = braceOpenChar)],
    -- /(?:def|function|public|private|protected)\s+\w+\s*\(/i
    reSeq [reAlts [reLit "def" true, reLit "function" true, reLit "public" true,
        reLit "private" true, reLit "protected" true],
      rePlus jsWhitespace false, rePlus jsWordChar false, reStar jsWhitespace false,
      RE.cls (fun c => c = '(')],
    -- /leetcode|hackerrank|codeforces|atcoder/i
    reAlts [reLit "leetcode" true, reLit "hackerrank" true, reLit "codeforces" true,
      reLit "atcoder" true],
    -- /\d+\.\s+\w+.*rectangle|array|tree|graph|string/i
    reAlts [reSeq [rePlus Char.isDigit false, RE.cls (fun c => c = '.'),
        rePlus jsWhitespace false, rePlus jsWordChar false, reStar dotNoNewline false,
        reLit "rectangle" true],
      reLit "array" true, reLit "tree" true, reLit "graph" true, reLit "string" true],
    -- /solution|implement|algorithm|code\s+to/i
    reAlts [reLit "solution" true, reLit "implement" true, reLit "algorithm" true,
      reSeq [reLit "code" true, rePlus jsWhitespace false, reLit "to" true]],
    -- /return\s+(?:true|false|\w+)/i
    reSeq [reLit "return" true, rePlus jsWhitespace false,
      reAlts [reLit "true" true, reLit "false" true, rePlus jsWordChar false]],
    -- /#include|using\s+namespace|import\s+/i
    reAlts [reLit "#include" true,
      reSeq [reLit "using" true, rePlus jsWhitespace false, reLit "namespace" true],
      reSeq [reLit "import" true, rePlus jsWhitespace false]],
    -- /vector|list|map|set|queue|stack/i
    reAlts [reLit "vector" true, reLit "list" true, reLit "map" true, reLit "set" true,
      reLit "queue" true, reLit "stack" true],
    -- /int\s+\w+\s*\(|void\s+\w+\s*\(|bool\s+\w+\s*\(/i
    reAlts [reSeq [reLit "int" true, rePlus jsWhitespace false, rePlus jsWordChar false,
        reStar jsWhitespace false, RE.cls (fun c => c = '(')],
      reSeq [reLit "void" true, rePlus jsWhitespace false, rePlus jsWordChar false,
        reStar jsWhitespace false, RE.cls (fun c => c = '(')],
      reSeq [reLit "bool" true, rePlus jsWhitespace false, rePlus jsWordChar false,
        reStar jsWhitespace false, RE.cls (fun c => c = '(')]] ]

/-- /```[\s\S]*?```/ — fenced code block. -/
def codeBlockRE : RE := reSeq [fenceRE, reStar anyChar true, fenceRE]

/-- The `mcqPatterns` array; at least two of the four must match the prompt. -/
def mcqPatterns : List RE :=
  [ -- /(?:which|what|choose|select|pick).*?(?:option|answer|choice|letter)[\s\S]{0,200}?[a-eA-E][\)\.]/gi
    reSeq [reAlts [reLit "which" true, reLit "what" true, reLit "choose" true,
        reLit "select" true, reLit "pick" true],
      reStar dotNoNewline true,
      reAlts [reLit "option" true, reLit "answer" true, reLit "choice" true,
        reLit "letter" true],
      RE.rep anyChar 0 (some 200) true, RE.cls letterAtoE, RE.cls parenOrDot],
    -- /(?:option|answer|choice)\s*[a-eA-E][\)\.]/gi
    reSeq [reAlts [reLit "option" true, reLit "answer" true, reLit "choice" true],
      reStar jsWhitespace false, RE.cls letterAtoE, RE.cls parenOrDot],
    -- /[a-eA-E][\)\.]\s+[A-Z][a-z]+/gi
    -- (the `i` flag makes the `[A-Z]`/`[a-z]` classes case-insensitive)
    reSeq [RE.cls letterAtoE, RE.cls parenOrDot, rePlus jsWhitespace false,
      RE.cls asciiAlpha, rePlus asciiAlpha false],
    -- /^\s*[a-eA-E][\)\.]\s+[A-Z]/gm   (no `i` flag)
    reSeq [RE.bol true, reStar jsWhitespace false, RE.cls letterAtoE,
      RE.cls parenOrDot, rePlus jsWhitespace false, RE.cls upperAZ] ]

/-- `mcqPatterns.filter(pattern => pattern.test(originalText)).length`. -/
def mcqMatchCount (originalText : List Char) : Nat :=
  (mcqPatterns.filter (fun re => reTest re originalText)).length

/-! ### `extractMcqAnswer` — letter extraction and option-text recovery -/

/-- `cleanResponse`: unwrap fenced code blocks (keeping their content),
then unwrap inline code, then trim.
`response.replace(/```[\s\S]*?```/g, m => m.replace(/```[\w]*\n?/g, '').replace(/```/g, '').trim())`
followed by `.replace(/`([^`]+)`/g, '$1')` and `.trim()`. -/
def mcqCleanResponse (response : List Char) : List Char :=
  -- /```[\w]*\n?/g
  let fenceHeadRE := reSeq [fenceRE, reStar jsWordChar false, reOpt nlChar]
  let afterBlocks := jsReplaceAll codeBlockRE response (fun m =>
    let matchedText := subSlice response m.startPos m.endPos
    jsTrimChars (jsReplaceAll fenceRE
      (jsReplaceAll fenceHeadRE matchedText (fun _ => [])) (fun _ => [])))
  -- /`([^`]+)`/g  →  '$1'
  let inlineCodeRE := reSeq [RE.cls (fun c => c = backtickChar),
    RE.group 1 (rePlus notBacktick false), RE.cls (fun c => c = backtickChar)]
  let afterInline := jsReplaceAll inlineCodeRE afterBlocks (fun m =>
    (capText afterBlocks m 1).getD [])
  jsTrimChars afterInline

/-- The `answerPatterns` array (all global). -/
def answerPatterns : List RE :=
  [ -- /(?:answer|correct|right|solution)[\s:]*([a-eA-E])/gi
    reSeq [reAlts [reLit "answer" true, reLit "correct" true, reLit "right" true,
        reLit "solution" true],
      reStar wsOrColon false, RE.group 1 (RE.cls letterAtoE)],
    -- /(?:option|choice)\s*([a-eA-E])\s*(?:is|are|was|were|correct|right|answer)/gi
    reSeq [reAlts [reLit "option" true, reLit "choice" true],
      reStar jsWhitespace false, RE.group 1 (RE.cls letterAtoE),
      reStar jsWhitespace false,
      reAlts [reLit "is" true, reLit "are" true, reLit "was" true, reLit "were" true,
        reLit "correct" true, reLit "right" true, reLit "answer" true]],
    -- /^([a-eA-E])[\)\.]\s*(?:is|the|correct|answer)/gim
    reSeq [RE.bol true, RE.group 1 (RE.cls letterAtoE), RE.cls parenOrDot,
      reStar jsWhitespace false,
      reAlts [reLit "is" true, reLit "the" true, reLit "correct" true,
        reLit "answer" true]],
    -- /(?:select|choose|pick)\s*([a-eA-E])/gi
    reSeq [reAlts [reLit "select" true, reLit "choose" true, reLit "pick" true],
      reStar jsWhitespace false, RE.group 1 (RE.cls letterAtoE)],
    -- /answer\s*:\s*([a-eA-E])/gi
    reSeq [reLit "answer" true, reStar jsWhitespace false, RE.cls (fun c => c = ':'),
      reStar jsWhitespace false, RE.group 1 (RE.cls letterAtoE)],
    -- /\b([a-eA-E])\b/g
    reSeq [RE.wordBoundary, RE.group 1 (RE.cls letterAtoE), RE.wordBoundary] ]

/-- `match.match(/([a-eA-E])/i)` — the leftmost `[a-eA-E]` character. -/
def firstLetterIn (cs : List Char) : Option Char := cs.find? letterAtoE

/-- The letter-extraction loop: the first pattern (in order) one of whose
full matches contains a letter wins; the letter is upper-cased. -/
def extractAnswerLetter (cleanResponse : List Char) : Option Char :=
  (firstSome (fun re => firstSome firstLetterIn (gMatchTexts re cleanResponse))
    answerPatterns).map Char.toUpper

/-- The `optionPatterns` array for the chosen letter, together with each
pattern's `g` flag.  `String.prototype.matchAll` throws on a non-global
regex, and the loop catches and ignores that throw, so only the global
entry (pattern 8) ever produces matches. -/
def optionPatterns (letterUpper : Char) : List (RE × Bool) :=
  let letterCls := letterClassFor letterUpper
  [ -- 1: `(?:^|[\s\n])([Ll])[\).]\s+([^\n]{1,500}?)(?=\s*(?:[A-E][\).]|$|\n\s*[A-E][\).]|\n\s*[A-E]\s|\n))`, 'im'
    (reSeq [reAlts [RE.bol true, RE.cls jsWhitespace],
      RE.group 1 (RE.cls letterCls), RE.cls parenOrDot, rePlus jsWhitespace false,
      RE.group 2 (RE.rep notNewline 1 (some 500) true),
      RE.look (reSeq [reStar jsWhitespace false,
        reAlts [reSeq [RE.cls letterAtoE, RE.cls parenOrDot], RE.eol true,
          reSeq [RE.cls nlChar, reStar jsWhitespace false, RE.cls letterAtoE,
            RE.cls parenOrDot],
          reSeq [RE.cls nlChar, reStar jsWhitespace false, RE.cls letterAtoE,
            RE.cls jsWhitespace],
          RE.cls nlChar]])], false),
    -- 2: `(?:^|[\s\n])([Ll])[\).]\s+([^\n]+?)(?=\s*(?:[A-E][\).]|$|\n))`, 'im'
    (reSeq [reAlts [RE.bol true, RE.cls jsWhitespace],
      RE.group 1 (RE.cls letterCls), RE.cls parenOrDot, rePlus jsWhitespace false,
      RE.group 2 (rePlus notNewline true),
      RE.look (reSeq [reStar jsWhitespace false,
        reAlts [reSeq [RE.cls letterAtoE, RE.cls parenOrDot], RE.eol true,
          RE.cls nlChar]])], false),
    -- 3: `(?:^|[\s\n])([Ll])\s+([^\n]{1,500}?)(?=\s*(?:[A-E][\).]|$|\n\s*[A-E][\).]|\n\s*[A-E]\s|\n))`, 'im'
    (reSeq [reAlts [RE.bol true, RE.cls jsWhitespace],
      RE.group 1 (RE.cls letterCls), rePlus jsWhitespace false,
      RE.group 2 (RE.rep notNewline 1 (some 500) true),
      RE.look (reSeq [reStar jsWhitespace false,
        reAlts [reSeq [RE.cls letterAtoE, RE.cls parenOrDot], RE.eol true,
          reSeq [RE.cls nlChar, reStar jsWhitespace false, RE.cls letterAtoE,
            RE.cls parenOrDot],
          reSeq [RE.cls nlChar, reStar jsWhitespace false, RE.cls letterAtoE,
            RE.cls jsWhitespace],
          RE.cls nlChar]])], false),
    -- 4: `(?:^|[\s\n])([Ll])[\).]\s+([\s\S]{1,800}?)(?=\s*(?:[A-E][\).]|$|\n\s*[A-E][\).]|\n\s*[A-E]\s|\n))`, 'im'
    (reSeq [reAlts [RE.bol true, RE.cls jsWhitespace],
      RE.group 1 (RE.cls letterCls), RE.cls parenOrDot, rePlus jsWhitespace false,
      RE.group 2 (RE.rep anyChar 1 (some 800) true),
      RE.look (reSeq [reStar jsWhitespace false,
        reAlts [reSeq [RE.cls letterAtoE, RE.cls parenOrDot], RE.eol true,
          reSeq [RE.cls nlChar, reStar jsWhitespace false, RE.cls letterAtoE,
            RE.cls parenOrDot],
          reSeq [RE.cls nlChar, reStar jsWhitespace false, RE.cls letterAtoE,
            RE.cls jsWhitespace],
          RE.cls nlChar]])], false),
    -- 5: `([Ll])[\).]\s*([^Ll]{1,600}?)(?=\s*[A-E][\).]|\s*[A-E]\s|$)`, 'i'
    (reSeq [RE.group 1 (RE.cls letterCls), RE.cls parenOrDot,
      reStar jsWhitespace false,
      RE.group 2 (RE.rep (notLetterFor letterUpper) 1 (some 600) true),
      RE.look (reAlts [reSeq [reStar jsWhitespace false, RE.cls letterAtoE,
          RE.cls parenOrDot],
        reSeq [reStar jsWhitespace false, RE.cls letterAtoE, RE.cls jsWhitespace],
        RE.eol false])], false),
    -- 6: `(?:^|\n)\s*([Ll])[\).]\s+([\s\S]{1,800}?)(?=\s*(?:\n\s*[A-E][\).]|\n\s*[A-E]\s|$|\n))`, 'im'
    (reSeq [reAlts [RE.bol true, RE.cls nlChar], reStar jsWhitespace false,
      RE.group 1 (RE.cls letterCls), RE.cls parenOrDot, rePlus jsWhitespace false,
      RE.group 2 (RE.rep anyChar 1 (some 800) true),
      RE.look (reSeq [reStar jsWhitespace false,
        reAlts [reSeq [RE.cls nlChar, reStar jsWhitespace false, RE.cls letterAtoE,
            RE.cls parenOrDot],
          reSeq [RE.cls nlChar, reStar jsWhitespace false, RE.cls letterAtoE,
            RE.cls jsWhitespace],
          RE.eol true, RE.cls nlChar]])], false),
    -- 7: `\b([Ll])[\).]?\s+([^]*?)(?=\s*(?:[A-E][\).]|\s+[A-E]\s|$))`, 'i'
    (reSeq [RE.wordBoundary, RE.group 1 (RE.cls letterCls), reOpt parenOrDot,
      rePlus jsWhitespace false, RE.group 2 (reStar anyChar true),
      RE.look (reSeq [reStar jsWhitespace false,
        reAlts [reSeq [RE.cls letterAtoE, RE.cls parenOrDot],
          reSeq [rePlus jsWhitespace false, RE.cls letterAtoE, RE.cls jsWhitespace],
          RE.eol false]])], false),
    -- 8: `([Ll])[\).]\s+([^\n]{1,200})`, 'gi'
    (reSeq [RE.group 1 (RE.cls letterCls), RE.cls parenOrDot,
      rePlus jsWhitespace false,
      RE.group 2 (RE.rep notNewline 1 (some 200) false)], true) ]

/-- The per-candidate cleanup of the option-text loop: strip a leading
bullet, collapse blank lines, cut before the next option via the three
`stopPatterns`, then strip trailing punctuation and trim. -/
def optionTextCleanup (text0 : List Char) : List Char :=
  -- `.replace(/^\s*[•\-\*]\s*/, '')` then `.replace(/\n\s*\n+/g, ' ')` then trim
  let bulletRE := reSeq [RE.bol false, reStar jsWhitespace false, RE.cls bulletChar,
    reStar jsWhitespace false]
  let collapseRE := reSeq [RE.cls nlChar, reStar jsWhitespace false, rePlus nlChar false]
  let text1 := jsTrimChars (jsReplaceAll collapseRE
    (jsReplaceFirst bulletRE text0 (fun _ => [])) (fun _ => (" ").toList))
  -- the three stopPatterns (no flags: `^` is start-of-string, `[A-E]` strict)
  let stopPatterns : List RE :=
    [ -- /^([^]*?)(?=\s+[A-E][\)\.])/
      reSeq [RE.bol false, RE.group 1 (reStar anyChar true),
        RE.look (reSeq [rePlus jsWhitespace false, RE.cls upperAtoE, RE.cls parenOrDot])],
      -- /^([^]*?)(?=\n\s*[A-E][\)\.])/
      reSeq [RE.bol false, RE.group 1 (reStar anyChar true),
        RE.look (reSeq [RE.cls nlChar, reStar jsWhitespace false, RE.cls upperAtoE,
          RE.cls parenOrDot])],
      -- /^([^]*?)(?=\s+[A-E]\s)/
      reSeq [RE.bol false, RE.group 1 (reStar anyChar true),
        RE.look (reSeq [rePlus jsWhitespace false, RE.cls upperAtoE,
          RE.cls jsWhitespace])] ]
  let text2 := stopPatterns.foldl (fun text stopRE =>
    match jsSearch stopRE text 0 with
    | none => text
    | some m =>
      match capText text m 1 with
      | none => text
      | some cap =>
        if cap.isEmpty then text     -- `stopMatch[1]` falsy
        else
          let candidate := jsTrimChars cap
          if 0 < candidate.length then candidate else text) text1
  -- `.replace(/[\.;,\s]+$/, '').trim()`
  let trailingRE := reSeq [rePlus trailPunct false, RE.eol false]
  jsTrimChars (jsReplaceFirst trailingRE text2 (fun _ => []))

/-- The best-match selection over `optionPatterns`:
prefer longer cleaned texts, accept a slightly shorter text
(`>= bestLength * 0.7`, the float literal modelled exactly as `7/10`) from an
earlier pattern, and accept anything when nothing was found yet.
`bestPatternIndex` starts at `-1`. -/
def mcqBestOption (originalText : List Char) (letterUpper : Char) :
    Option (List Char) :=
  (((optionPatterns letterUpper).enum).foldl
    (fun st im =>
      if !im.2.2 then st    -- non-global regex: `matchAll` throws; caught, skipped
      else
        (jsMatchAll im.2.1 originalText).foldl
          (fun st m =>
            match capText originalText m 2 with
            | none => st
            | some cap =>
              if cap.isEmpty then st        -- `match[2]` falsy
              else
                let text := jsTrimChars cap
                if text.length < 1 then st
                else
                  let text := optionTextCleanup text
                  let isBetterMatch :=
                    decide (st.2.1 < text.length) ||
                    (decide ((st.2.1 : ℚ) * (7 / 10) ≤ (text.length : ℚ)) &&
                      decide ((im.1 : Int) < st.2.2)) ||
                    (decide (st.2.1 = 0) && decide (0 < text.length))
                  if isBetterMatch then (some text, text.length, (im.1 : Int))
                  else st)
          st)
    ((none, 0, -1) : Option (List Char) × Nat × Int)).1

/-- `## Answer: X` followed by the option text as a fenced block (when it
contains code-like punctuation) or in bold. -/
def mcqFormatOption (letter : Char) (optionText : List Char) : List Char :=
  let fence : List Char := [backtickChar, backtickChar, backtickChar]
  if reTest (RE.cls codeSyntaxChar) optionText then
    ("## Answer: ").toList ++ [letter] ++ ("\n\n").toList ++ fence ++
      ("\n").toList ++ optionText ++ ("\n").toList ++ fence ++ ("\n\n").toList
  else
    ("## Answer: ").toList ++ [letter] ++ ("\n\n**").toList ++ optionText ++
      ("**\n\n").toList

/-- `cleanResponseNoAnswer`: the response with code blocks removed, inline
code unwrapped, every `answer: X` phrase removed, and trimmed. -/
def mcqExplanationText (response : List Char) : List Char :=
  let inlineCodeRE := reSeq [RE.cls (fun c => c = backtickChar),
    RE.group 1 (rePlus notBacktick false), RE.cls (fun c => c = backtickChar)]
  let afterBlocks := jsReplaceAll codeBlockRE response (fun _ => [])
  let cleanResponse := jsTrimChars (jsReplaceAll inlineCodeRE afterBlocks
    (fun m => (capText afterBlocks m 1).getD []))
  -- /answer\s*:\s*[a-eA-E]/gi
  let answerRefRE := reSeq [reLit "answer" true, reStar jsWhitespace false,
    RE.cls (fun c => c = ':'), reStar jsWhitespace false, RE.cls letterAtoE]
  jsTrimChars (jsReplaceAll answerRefRE cleanResponse (fun _ => []))

/-- `hasExplanation`. -/
def mcqHasExplanation (cleanResponseNoAnswer : List Char) : Bool :=
  let lower := cleanResponseNoAnswer.map Char.toLower
  decide (15 < cleanResponseNoAnswer.length) ||
  listHasSub lower ("because").toList ||
  listHasSub lower ("reason").toList ||
  listHasSub lower ("explanation").toList

/-- The `lastResortPatterns` array for the chosen letter, with each
pattern's `g` flag (again, `matchAll` throws on the non-global ones). -/
def lastResortPatterns (letterUpper : Char) : List (RE × Bool) :=
  let letterCls := letterClassFor letterUpper
  [ -- 1: `([Ll])[\).]\s*([^\n]{1,200}?)(?=\s*(?:[A-E][\).]|$|\n))`, 'gi'
    (reSeq [RE.group 1 (RE.cls letterCls), RE.cls parenOrDot,
      reStar jsWhitespace false, RE.group 2 (RE.rep notNewline 1 (some 200) true),
      RE.look (reSeq [reStar jsWhitespace false,
        reAlts [reSeq [RE.cls letterAtoE, RE.cls parenOrDot], RE.eol false,
          RE.cls nlChar]])], true),
    -- 2: `([Ll])[\).]\s*([\s\S]{1,300}?)(?=\s*(?:[A-E][\).]|$))`, 'i'
    (reSeq [RE.group 1 (RE.cls letterCls), RE.cls parenOrDot,
      reStar jsWhitespace false, RE.group 2 (RE.rep anyChar 1 (some 300) true),
      RE.look (reSeq [reStar jsWhitespace false,
        reAlts [reSeq [RE.cls letterAtoE, RE.cls parenOrDot], RE.eol false]])],
      false),
    -- 3: `\b([Ll])\s+([^\n]{1,200}?)(?=\s*(?:[A-E][\).]|$|\n))`, 'gi'
    (reSeq [RE.wordBoundary, RE.group 1 (RE.cls letterCls),
      rePlus jsWhitespace false, RE.group 2 (RE.rep notNewline 1 (some 200) true),
      RE.look (reSeq [reStar jsWhitespace false,
        reAlts [reSeq [RE.cls letterAtoE, RE.cls parenOrDot], RE.eol false,
          RE.cls nlChar]])], true),
    -- 4: `([Ll])[\).]?\s+([^]*?)(?=\s*(?:[A-E][\).]|\s+[A-E]\s|$))`, 'i'
    (reSeq [RE.group 1 (RE.cls letterCls), reOpt parenOrDot,
      rePlus jsWhitespace false, RE.group 2 (reStar anyChar true),
      RE.look (reSeq [reStar jsWhitespace false,
        reAlts [reSeq [RE.cls letterAtoE, RE.cls parenOrDot],
          reSeq [rePlus jsWhitespace false, RE.cls letterAtoE, RE.cls jsWhitespace],
          RE.eol false]])], false),
    -- 5: `(?:^|\n)\s*([Ll])[\).]\s+([^\n]{1,200})`, 'gim'
    (reSeq [reAlts [RE.bol true, RE.cls nlChar], reStar jsWhitespace false,
      RE.group 1 (RE.cls letterCls), RE.cls parenOrDot, rePlus jsWhitespace false,
      RE.group 2 (RE.rep notNewline 1 (some 200) false)], true) ]

/-- /^([^]*?)(?=\s+[A-E][\)\.]|$)/ — the last-resort stop pattern. -/
def stopAtNextOptionRE : RE :=
  reSeq [RE.bol false, RE.group 1 (reStar anyChar true),
    RE.look (reAlts [reSeq [rePlus jsWhitespace false, RE.cls upperAtoE,
      RE.cls parenOrDot], RE.eol false])]

/-- One candidate of the last-resort loop: group 2, trimmed, bullet
stripped, whitespace and newlines normalized, cut before the next option,
trailing punctuation removed; `none` when empty (the loop continues). -/
def mcqLastResortExtract (originalText : List Char) (m : MatchRec) :
    Option (List Char) :=
  match capText originalText m 2 with
  | none => none
  | some cap =>
    if cap.isEmpty then none           -- `match[2]` falsy
    else
      let extracted := jsTrimChars cap
      if extracted.length < 1 then none
      else
        let bulletRE := reSeq [RE.bol false, reStar jsWhitespace false,
          RE.cls bulletChar, reStar jsWhitespace false]
        -- `.replace(/\s+/g, ' ')` then `.replace(/\n+/g, ' ')` then trim
        let extracted := jsTrimChars (jsReplaceAll (rePlus nlChar false)
          (jsReplaceAll (rePlus jsWhitespace false)
            (jsReplaceFirst bulletRE extracted (fun _ => []))
            (fun _ => (" ").toList))
          (fun _ => (" ").toList))
        let extracted :=
          match jsSearch stopAtNextOptionRE extracted 0 with
          | none => extracted
          | some sm =>
            match capText extracted sm 1 with
            | none => extracted
            | some c1 => if c1.isEmpty then extracted else jsTrimChars c1
        let trailingRE := reSeq [rePlus trailPunct false, RE.eol false]
        let extracted := jsTrimChars (jsReplaceFirst trailingRE extracted (fun _ => []))
        if 0 < extracted.length then some extracted else none

/-- The last-resort phase: first successful candidate is formatted and
returned; otherwise the letter-only heading is prepended to the unmodified
response. -/
def mcqLastResort (originalText : List Char) (letter : Char)
    (response : List Char) : List Char :=
  match firstSome
      (fun rg => if !rg.2 then none    -- non-global: `matchAll` throws, skipped
        else firstSome (mcqLastResortExtract originalText) (jsMatchAll rg.1 originalText))
      (lastResortPatterns letter) with
  | some extracted => mcqFormatOption letter extracted
  | none => ("## Answer: ").toList ++ [letter] ++ ("\n\n").toList ++ response

/-- `llmService.extractMcqAnswer(response, originalText, activeSkill)`. -/
def extractMcqAnswer (response : Option String) (originalText : Option String)
    (activeSkill : Option String := none) : Option String :=
  -- `if (!originalText || !response) return response;`
  if !jsTruthyStr originalText || !jsTruthyStr response then response
  else
    let r := (response.getD "").toList
    let t := (originalText.getD "").toList
    let isLikelyCodingProblem := codingProblemIndicators.any (fun re => reTest re t)
    let hasCodeBlocks := reTest codeBlockRE r
    let codingSkills : List String :=
      ["dsa", "programming", "devops", "data-science", "system-design"]
    let isCodingSkill := jsTruthyStr activeSkill &&
      codingSkills.contains (activeSkill.getD "")
    if isLikelyCodingProblem || (hasCodeBlocks && isCodingSkill) then response
    else if mcqMatchCount t < 2 then response
    else
      let cleanResponse := mcqCleanResponse r
      match extractAnswerLetter cleanResponse with
      | none => response
      | some letter =>
        match mcqBestOption t letter with
        | some optionText =>
          if 0 < optionText.length then
            let formatted := mcqFormatOption letter optionText
            let cleanResponseNoAnswer := mcqExplanationText r
            if mcqHasExplanation cleanResponseNoAnswer &&
                !(listHasSub (cleanResponseNoAnswer.map Char.toLower)
                  ((optionText.map Char.toLower).take 20)) then
              some (String.mk (formatted ++ ("---\n\n*Explanation:*\n").toList ++
                cleanResponseNoAnswer))
            else
              some (String.mk formatted)
          else
            some (String.mk (mcqLastResort t letter r))
        | none => some (String.mk (mcqLastResort t letter r))

/-! ## Theorems -/

/-- Flag table of the classifier: `isNetworkError` exactly for the network
and timeout kinds, `isRetryable` exactly outside the auth and
invalid-request kinds. -/
theorem analyzeError_flags (e : JsError) :
    (analyzeError e).isNetworkError =
      ((analyzeError e).type == NETWORK_ERROR || (analyzeError e).type == TIMEOUT_ERROR) ∧
    (analyzeError e).isRetryable =
      !((analyzeError e).type == AUTH_ERROR || (analyzeError e).type == INVALID_REQUEST_ERROR) := by
  simp only [analyzeError]
  repeat' split <;> simp_all

/-- When the current index is in range and not exhausted, `getNextModel`
returns it and leaves the pool untouched. -/
theorem getNextModel_viable (s : GeminiPool) (h0 : 0 < s.numModels)
    (hlt : s.currentKeyIndex < s.numModels)
    (hex : s.currentKeyIndex ∉ s.exhaustedKeys) :
    getNextModel s = (some s.currentKeyIndex, s) := by
  unfold getNextModel
  rcases Nat.lt_or_ge s.numModels 2 with h2 | h2
  · have h1 : s.numModels = 1 := by omega
    have hidx : s.currentKeyIndex = 0 := by omega
    simp [h1, hidx]
  · have h1 : s.numModels ≠ 0 := by omega
    have h1' : s.numModels ≠ 1 := by omega
    simp only [h1, h1', if_false]
    obtain ⟨k, hk⟩ : ∃ k, s.numModels = k + 1 := ⟨s.numModels - 1, by omega⟩
    rw [hk]
    unfold getNextModelLoop
    simp [hex]

/-- When every index below `numModels` is exhausted and the rotation index is
in range, the search loop always falls through and performs the full
reset. -/
theorem getNextModelLoop_allExhausted (fuel : Nat) :
    ∀ s : GeminiPool, 0 < s.numModels → s.currentKeyIndex < s.numModels →
    (∀ i < s.numModels, i ∈ s.exhaustedKeys) →
    getNextModelLoop fuel s =
      (some 0, { s with exhaustedKeys := ∅, currentKeyIndex := 0 }) := by
  induction fuel with
  | zero => intro s _ _ _; rfl
  | succ f ih =>
    intro s h0 hlt hall
    unfold getNextModelLoop
    have hmem : s.currentKeyIndex ∈ s.exhaustedKeys := hall _ hlt
    simp only [hmem, not_true_eq_false, if_false]
    exact ih _ h0 (Nat.mod_lt _ h0) hall

/-- The search loop returns the first non-exhausted index in cyclic order:
if the `j`-th cyclic successor of `currentKeyIndex` is the first
non-exhausted index (`j < fuel`), the loop advances `j` times and returns
it, updating only the rotation index. -/
theorem getNextModelLoop_first_free :
    ∀ (j fuel : Nat) (s : GeminiPool), 0 < s.numModels →
    s.currentKeyIndex < s.numModels → j < fuel →
    (∀ i < j, (s.currentKeyIndex + i) % s.numModels ∈ s.exhaustedKeys) →
    (s.currentKeyIndex + j) % s.numModels ∉ s.exhaustedKeys →
    getNextModelLoop fuel s = (some ((s.currentKeyIndex + j) % s.numModels),
      { s with currentKeyIndex := (s.currentKeyIndex + j) % s.numModels }) := by
  intro j
  induction j with
  | zero =>
    intro fuel s h0 hlt hfuel _ hfree
    obtain ⟨f, rfl⟩ : ∃ f, fuel = f + 1 := ⟨fuel - 1, by omega⟩
    have hmod : (s.currentKeyIndex + 0) % s.numModels = s.currentKeyIndex := by
      simp [Nat.mod_eq_of_lt hlt]
    rw [hmod] at hfree ⊢
    unfold getNextModelLoop
    simp [hfree]
  | succ j ih =>
    intro fuel s h0 hlt hfuel hexh hfree
    obtain ⟨f, rfl⟩ : ∃ f, fuel = f + 1 := ⟨fuel - 1, by omega⟩
    have hmem : s.currentKeyIndex ∈ s.exhaustedKeys := by
      have h00 := hexh 0 (by omega)
      simpa [Nat.mod_eq_of_lt hlt] using h00
    have hshift : ∀ i : Nat,
        ((s.currentKeyIndex + 1) % s.numModels + i) % s.numModels =
          (s.currentKeyIndex + (i + 1)) % s.numModels := by
      intro i
      rw [Nat.mod_add_mod]
      have harith : s.currentKeyIndex + 1 + i = s.currentKeyIndex + (i + 1) := by omega
      rw [harith]
    unfold getNextModelLoop
    simp only [hmem, not_true_eq_false, if_false]
    rw [ih f { s with currentKeyIndex := (s.currentKeyIndex + 1) % s.numModels }
      h0 (Nat.mod_lt _ h0) (by omega)
      (fun i hi => by
        show ((s.currentKeyIndex + 1) % s.numModels + i) % s.numModels ∈ s.exhaustedKeys
        rw [hshift i]
        exact hexh (i + 1) (by omega))
      (by
        show ((s.currentKeyIndex + 1) % s.numModels + j) % s.numModels ∉ s.exhaustedKeys
        rw [hshift j]
        exact hfree)]
    rw [hshift j]

/-- C2: the rotation contract of `getNextModel`.  Parts: (1) a viable
current index is returned with the pool unchanged; (2) otherwise the index
advances modulo the pool size — up to `numModels` times — and the *first*
non-exhausted credential in cyclic order is returned, with only the rotation
index updated; (3) for pools of at least two credentials with every index
exhausted, all flags are cleared and index 0 is returned; (4) a
single-credential pool returns its only credential *without* touching the
exhausted flags (this is where the claim as stated fails). -/
theorem getNextModel_spec :
    (∀ s : GeminiPool, 0 < s.numModels → s.currentKeyIndex < s.numModels →
      s.currentKeyIndex ∉ s.exhaustedKeys →
      getNextModel s = (some s.currentKeyIndex, s)) ∧
    (∀ (s : GeminiPool) (j : Nat), 2 ≤ s.numModels →
      s.currentKeyIndex < s.numModels → j < s.numModels →
      (∀ i < j, (s.currentKeyIndex + i) % s.numModels ∈ s.exhaustedKeys) →
      (s.currentKeyIndex + j) % s.numModels ∉ s.exhaustedKeys →
      getNextModel s = (some ((s.currentKeyIndex + j) % s.numModels),
        { s with currentKeyIndex := (s.currentKeyIndex + j) % s.numModels })) ∧
    (∀ s : GeminiPool, 2 ≤ s.numModels → s.currentKeyIndex < s.numModels →
      (∀ i < s.numModels, i ∈ s.exhaustedKeys) →
      getNextModel s =
        (some 0, { s with exhaustedKeys := ∅, currentKeyIndex := 0 })) ∧
    (∀ s : GeminiPool, s.numModels = 1 → getNextModel s = (some 0, s)) := by
  refine ⟨fun s h0 hlt hex => getNextModel_viable s h0 hlt hex, ?_, ?_, ?_⟩
  · intro s j h2 hlt hj hexh hfree
    unfold getNextModel
    have h1 : s.numModels ≠ 0 := by omega
    have h1' : s.numModels ≠ 1 := by omega
    simp only [h1, h1', if_false]
    exact getNextModelLoop_first_free j s.numModels s (by omega) hlt hj hexh hfree
  · intro s h2 hlt hall
    unfold getNextModel
    have h1 : s.numModels ≠ 0 := by omega
    have h1' : s.numModels ≠ 1 := by omega
    simp only [h1, h1', if_false]
    exact getNextModelLoop_allExhausted _ s (by omega) hlt hall
  · intro s h1
    unfold getNextModel
    simp [h1]

/-- Witness for C2: the three parts of `getNextModel_spec` at concrete
pools. -/
theorem getNextModel_spec_witness :
    getNextModel ⟨2, 1, {0}⟩ = (some 1, ⟨2, 1, {0}⟩) ∧
    getNextModel ⟨2, 0, {0}⟩ = (some ((0 + 1) % 2), ⟨2, (0 + 1) % 2, {0}⟩) ∧
    getNextModel ⟨3, 0, {0, 1}⟩ = (some ((0 + 2) % 3), ⟨3, (0 + 2) % 3, {0, 1}⟩) ∧
    getNextModel ⟨2, 1, {0, 1}⟩ = (some 0, ⟨2, 0, ∅⟩) ∧
    getNextModel ⟨1, 0, ∅⟩ = (some 0, ⟨1, 0, ∅⟩) :=
  ⟨getNextModel_spec.1 ⟨2, 1, {0}⟩ (by decide) (by decide) (by decide),
   getNextModel_spec.2.1 ⟨2, 0, {0}⟩ 1 (by decide) (by decide) (by decide)
     (by decide) (by decide),
   getNextModel_spec.2.1 ⟨3, 0, {0, 1}⟩ 2 (by decide) (by decide) (by decide)
     (by decide) (by decide),
   getNextModel_spec.2.2.1 ⟨2, 1, {0, 1}⟩ (by decide) (by decide) (by decide),
   getNextModel_spec.2.2.2 ⟨1, 0, ∅⟩ rfl⟩

/-- Counterexample for C2: on a single-credential pool whose only index is
exhausted, `next()` returns the credential but does *not* clear the
exhausted flags (the `models.length === 1` shortcut skips the reset). -/
theorem getNextModel_singleton_no_reset :
    getNextModel ⟨1, 0, {0}⟩ = (some 0, ⟨1, 0, {0}⟩) ∧
    ((⟨1, 0, {0}⟩ : GeminiPool).exhaustedKeys ≠ (∅ : Finset Nat)) := by
  constructor
  · rfl
  · decide

/-- C3: the classifier is a total function into the seven kinds; the flags
follow the table (`isNetworkError` for the network and timeout kinds,
`isRetryable` false exactly for auth and invalid-request); and a message
containing `econnreset` (e.g. together with `timeout`) classifies as
`NETWORK_ERROR` because that check runs first. -/
theorem analyzeError_spec (e : JsError) :
    ((analyzeError e).type = NETWORK_ERROR ∨ (analyzeError e).type = AUTH_ERROR ∨
     (analyzeError e).type = RATE_LIMIT_ERROR ∨ (analyzeError e).type = TIMEOUT_ERROR ∨
     (analyzeError e).type = SERVER_ERROR ∨ (analyzeError e).type = INVALID_REQUEST_ERROR ∨
     (analyzeError e).type = UNKNOWN_ERROR) ∧
    ((analyzeError e).isNetworkError = true ↔
      ((analyzeError e).type = NETWORK_ERROR ∨ (analyzeError e).type = TIMEOUT_ERROR)) ∧
    ((analyzeError e).isRetryable = false ↔
      ((analyzeError e).type = AUTH_ERROR ∨ (analyzeError e).type = INVALID_REQUEST_ERROR)) ∧
    (jsIncludes (jsToLower e.message) "timeout" = true →
      jsIncludes (jsToLower e.message) "econnreset" = true →
      (analyzeError e).type = NETWORK_ERROR) := by
  obtain ⟨hnet, hret⟩ := analyzeError_flags e
  refine ⟨?_, ?_, ?_, ?_⟩
  · cases h : (analyzeError e).type <;> simp
  · rw [hnet]; cases h : (analyzeError e).type <;> simp
  · rw [hret]; cases h : (analyzeError e).type <;> simp
  · intro _ h2
    simp only [analyzeError]
    rw [if_pos]
    simp [h2]

/-- Witness for C3: a message containing both `timeout` and `econnreset` is
classified `NETWORK_ERROR`. -/
theorem analyzeError_spec_witness :
    (analyzeError (mkJsError "timeout after econnreset")).type = NETWORK_ERROR :=
  (analyzeError_spec (mkJsError "timeout after econnreset")).2.2.2
    (by decide) (by decide)

/-- C7: the backoff delay is `min(base * 2^(attempt-1) + jitter, 10000)`
with base 2000 for network-classified errors and 1000 otherwise; ignoring
jitter it is monotone in the attempt number, and it never exceeds 10000
ms. -/
theorem backoffDelay_spec (isNetworkError : Bool) (a b : Nat) (jitter : ℚ)
    (ha : 1 ≤ a) (hj0 : 0 ≤ jitter) (hj : jitter < 1000) :
    (backoffDelay isNetworkError a jitter =
      min ((if isNetworkError then (2000 : ℚ) else 1000) * 2 ^ (a - 1) + jitter)
        10000) ∧
    (a ≤ b → backoffDelay isNetworkError a 0 ≤ backoffDelay isNetworkError b 0) ∧
    backoffDelay isNetworkError a jitter ≤ 10000 := by
  refine ⟨rfl, fun hab => ?_, min_le_right _ _⟩
  unfold backoffDelay backoffExponentialDelay backoffBaseDelay
  apply min_le_min _ le_rfl
  have hbase : (0 : ℚ) ≤ if isNetworkError then (2000 : ℚ) else 1000 := by
    split <;> norm_num
  have hpow : (2 : ℚ) ^ (a - 1) ≤ 2 ^ (b - 1) := by
    apply pow_le_pow_right₀ (by norm_num) (by omega)
  have := mul_le_mul_of_nonneg_left hpow hbase
  linarith

/-- Witness for C7 at attempt 2 → 3, network-classified, jitter 500. -/
theorem backoffDelay_spec_witness :
    (backoffDelay true 2 500 =
      min ((if true then (2000 : ℚ) else 1000) * 2 ^ (2 - 1) + 500) 10000) ∧
    (backoffDelay true 2 0 ≤ backoffDelay true 3 0) ∧
    backoffDelay true 2 500 ≤ 10000 :=
  ⟨(backoffDelay_spec true 2 3 500 (by norm_num) (by norm_num) (by norm_num)).1,
   (backoffDelay_spec true 2 3 500 (by norm_num) (by norm_num) (by norm_num)).2.1
     (by norm_num),
   (backoffDelay_spec true 2 3 500 (by norm_num) (by norm_num) (by norm_num)).2.2⟩


/-- Splitting a list that contains no separator yields that single
segment. -/
theorem jsSplitChars_no_sep (sep : Char → Bool) :
    ∀ l : List Char, (∀ c ∈ l, sep c = false) → jsSplitChars sep l = [l] := by
  intro l h
  induction l with
  | nil => rfl
  | cons c cs ih =>
    unfold jsSplitChars
    rw [ih (fun x hx => h x (List.mem_cons_of_mem _ hx))]
    simp [h c (List.mem_cons_self _ _)]

/-- C9: the credential list parser: a missing value yields `[]`; a single
value without separators yields its trimmed form as a one-element list (when
non-empty and not the placeholder); and every returned entry is non-empty,
trimmed, and differs from the placeholder. -/
theorem getApiKeys_spec :
    (getApiKeys none = []) ∧
    (∀ v : String, (∀ c ∈ v.toList, ((c = ',' || c = '\n') : Bool) = false) →
      jsTrim v ≠ "" → jsTrim v ≠ "your-api-key-here" →
      getApiKeys (some v) = [jsTrim v]) ∧
    (∀ v : String, ∀ k ∈ getApiKeys (some v), k ≠ "" ∧ k ≠ "your-api-key-here") := by
  refine ⟨rfl, ?_, ?_⟩
  · intro v hsep hne hph
    have hl : jsTrimChars v.toList ≠ [] := by
      intro h
      apply hne
      show String.mk (jsTrimChars v.toList) = ""
      rw [h]
    have hv : v.toList.isEmpty = false := by
      rcases hvl : v.toList with _ | ⟨a, as⟩
      · exact absurd (by unfold jsTrimChars; rw [hvl]; simp) hl
      · simp [hvl]
    have h1 : 0 < (jsTrimChars v.toList).length := by
      rcases hvl : jsTrimChars v.toList with _ | ⟨a, as⟩
      · exact absurd hvl hl
      · simp [hvl]
    have h2 : jsTrimChars v.toList ≠ "your-api-key-here".toList := by
      intro h
      apply hph
      show String.mk (jsTrimChars v.toList) = _
      rw [h]
      rfl
    have hcond : (decide (0 < (jsTrimChars v.toList).length) &&
        !(jsTrimChars v.toList == "your-api-key-here".toList)) = true := by
      rw [Bool.and_eq_true, decide_eq_true_eq, Bool.not_eq_eq_eq_not, Bool.not_true,
        beq_eq_false_iff_ne]
      exact ⟨h1, h2⟩
    show (if v.toList.isEmpty = true then []
      else ((((jsSplitChars (fun c => c = ',' || c = '\n') v.toList).map
          jsTrimChars).filter
        (fun key => decide (0 < key.length) &&
          !(key == "your-api-key-here".toList))).map String.mk)) = [jsTrim v]
    rw [hv, jsSplitChars_no_sep _ _ hsep]
    simp only [Bool.false_eq_true, if_false, List.map, List.filter_cons, List.filter_nil,
      hcond, if_true]
    rfl
  · intro v k hk
    have hdef : getApiKeys (some v) =
        (if v.toList.isEmpty = true then []
          else ((((jsSplitChars (fun c => c = ',' || c = '\n') v.toList).map
              jsTrimChars).filter
            (fun key => decide (0 < key.length) &&
              !(key == "your-api-key-here".toList))).map String.mk)) := rfl
    rw [hdef] at hk
    cases hv : v.toList.isEmpty with
    | true =>
      rw [hv] at hk
      simp at hk
    | false =>
      rw [hv] at hk
      simp only [Bool.false_eq_true, if_false] at hk
      rw [List.mem_map] at hk
      obtain ⟨l, hl, rfl⟩ := hk
      rw [List.mem_filter] at hl
      obtain ⟨-, hcond⟩ := hl
      rw [Bool.and_eq_true, decide_eq_true_eq, Bool.not_eq_eq_eq_not, Bool.not_true,
        beq_eq_false_iff_ne] at hcond
      obtain ⟨hpos, hneq⟩ := hcond
      refine ⟨fun h => ?_, fun h => ?_⟩
      · have hl0 : l = [] := congrArg String.toList h
        rw [hl0] at hpos
        simp at hpos
      · exact hneq (congrArg String.toList h)

/-- Witness for C9: a single un-separated key (with surrounding blanks)
yields a one-element list; a concrete entry of the result is non-empty and
not the placeholder. -/
theorem getApiKeys_spec_witness :
    getApiKeys (some " key-one ") = [jsTrim " key-one "] ∧
    ("key-one" ≠ "" ∧ "key-one" ≠ "your-api-key-here") :=
  ⟨getApiKeys_spec.2.1 " key-one " (by decide) (by decide) (by decide),
   getApiKeys_spec.2.2 " key-one " "key-one" (by decide)⟩

/-- C10: when the original prompt or the answer is null/undefined/empty, the
extractor returns the answer argument unchanged (no detection, extraction,
or reformatting). -/
theorem extractMcqAnswer_falsy_identity (response originalText activeSkill : Option String)
    (h : originalText = none ∨ originalText = some "" ∨
         response = none ∨ response = some "") :
    extractMcqAnswer response originalText activeSkill = response := by
  unfold extractMcqAnswer
  rcases h with h | h | h | h <;> subst h <;> simp [jsTruthyStr]

/-- Witness for C10 at concrete inputs. -/
theorem extractMcqAnswer_falsy_identity_witness :
    extractMcqAnswer (some "some answer") none (some "dsa") = some "some answer" ∧
    extractMcqAnswer none (some "prompt") none = none ∧
    extractMcqAnswer (some "") (some "prompt") none = some "" :=
  ⟨extractMcqAnswer_falsy_identity _ _ _ (Or.inl rfl),
   extractMcqAnswer_falsy_identity _ _ _ (Or.inr (Or.inr (Or.inl rfl))),
   extractMcqAnswer_falsy_identity _ _ _ (Or.inr (Or.inr (Or.inr rfl)))⟩

/-- C8: the raw-transport payload transform maps `contents` turn by turn to
the snake_case wire shape, preserving the role of every turn in order, and
normalizes parts so a text part becomes `{text}`, an inline-data part
`{inline_data}`, and a file part `{file_data}`. -/
theorem transformRequestForHttpTransport_spec {α : Type} (request : SrcRequest α)
    (cs : List (SrcContent α)) (h : request.contents = some cs) :
    ((transformRequestForHttpTransport request).contents =
      some (cs.map transformContent)) ∧
    ((cs.map transformContent).map WireContent.role = cs.map SrcContent.role) ∧
    (∀ c : SrcContent α,
      (transformContent c).parts = (c.parts.getD []).map normalizePart) ∧
    (∀ (p : SrcPart α) (t : String), p.text = some t →
      normalizePart (some p) = WirePart.textPart t) ∧
    (∀ (p : SrcPart α) (d : α), p.text = none → p.inlineData = some d →
      normalizePart (some p) = WirePart.inlineDataPart d) ∧
    (∀ (p : SrcPart α) (d : α), p.text = none → p.inlineData = none →
      p.fileData = some d → normalizePart (some p) = WirePart.fileDataPart d) := by
  refine ⟨?_, ?_, fun c => rfl, ?_, ?_, ?_⟩
  · simp [transformRequestForHttpTransport, h]
  · simp [List.map_map, Function.comp, transformContent]
  · intro p t ht
    simp [normalizePart, ht]
  · intro p d ht hd
    simp [normalizePart, ht, hd]
  · intro p d ht hd hf
    simp [normalizePart, ht, hd, hf]

/-- Witness for C8 at a concrete two-turn request with a text part, an
inline-data part, and a file part. -/
theorem transformRequestForHttpTransport_spec_witness :
    ((transformRequestForHttpTransport
      ({ contents := some [
          { role := "user", parts := some [some { text := some "What is 2+2?" },
              some { inlineData := some "IMGDATA" }] },
          { role := "model", parts := some [some { text := some "4" },
              some { fileData := some "FILEREF" }] }],
         generationConfig := some "GENCFG" } : SrcRequest String)).contents =
      some ([
          { role := "user", parts := some [some { text := some "What is 2+2?" },
              some { inlineData := some "IMGDATA" }] },
          { role := "model", parts := some [some { text := some "4" },
              some { fileData := some "FILEREF" }] }].map transformContent)) ∧
    (([({ role := "user", parts := some [some { text := some "What is 2+2?" },
            some { inlineData := some "IMGDATA" }] } : SrcContent String),
        { role := "model", parts := some [some { text := some "4" },
            some { fileData := some "FILEREF" }] }].map transformContent).map
      WireContent.role =
      [({ role := "user", parts := some [some { text := some "What is 2+2?" },
            some { inlineData := some "IMGDATA" }] } : SrcContent String),
        { role := "model", parts := some [some { text := some "4" },
            some { fileData := some "FILEREF" }] }].map SrcContent.role) :=
  ⟨(transformRequestForHttpTransport_spec _ _ rfl).1,
   (transformRequestForHttpTransport_spec
      ({ contents := some [
          { role := "user", parts := some [some { text := some "What is 2+2?" },
              some { inlineData := some "IMGDATA" }] },
          { role := "model", parts := some [some { text := some "4" },
              some { fileData := some "FILEREF" }] }],
         generationConfig := some "GENCFG" } : SrcRequest String) _ rfl).2.1⟩

/-- The two parts of the C6 counterexample response: the first has no
`text`, the second does. -/
def noTextPart : GeminiWirePart := { text := none }

def partialTextPart : GeminiWirePart := { text := some "partial answer" }

/-- A truncated (`MAX_TOKENS`) candidate whose first part has no `text` but
whose second part does. -/
def truncatedTwoPartCandidate : GeminiWireCandidate where
  content := some { parts := some [some noTextPart, some partialTextPart] }
  finishReason := some "MAX_TOKENS"

def truncatedUsage : GeminiUsageMetadata where
  promptTokenCount := some 10
  totalTokenCount := some 8192
  thoughtsTokenCount := some 8100

def truncatedTwoPartResponse : GeminiWireResponse where
  error := none
  candidates := some [truncatedTwoPartCandidate]
  usageMetadata := some truncatedUsage

/-- Counterexample for C6: this response has a content part with text, yet
the parser rejects it with the ordinary `part missing text` error instead of
accepting the partial text — only the *first* part is ever consulted. -/
theorem _makeAlternativeRequestParse_counterexample :
    _makeAlternativeRequestParse truncatedTwoPartResponse =
      Except.error "Invalid response structure: part missing text" ∧
    _makeAlternativeRequestParse truncatedTwoPartResponse ≠
      Except.ok (jsTrim "partial answer") := by
  constructor
  · rfl
  · decide

/-- C6 (amended): for a truncated first candidate, if the *first* content
part carries non-empty (after trimming) text then the trimmed partial text
is returned; if the `parts` array is missing or empty, parsing fails with
the distinct truncation error reporting the thoughts- and total-token
counts from `usageMetadata`. -/
theorem _makeAlternativeRequestParse_truncation_spec
    (r : GeminiWireResponse) (cand : GeminiWireCandidate)
    (rest : List GeminiWireCandidate) (content : GeminiWireContent)
    (herr : r.error = none) (hcands : r.candidates = some (cand :: rest))
    (hcontent : cand.content = some content)
    (hfr : cand.finishReason = some "MAX_TOKENS") :
    (∀ (p0 : GeminiWirePart) (ps : List (Option GeminiWirePart)) (t : String),
      content.parts = some (some p0 :: ps) → p0.text = some t → t ≠ "" →
      jsTrim t ≠ "" →
      _makeAlternativeRequestParse r = Except.ok (jsTrim t)) ∧
    ((content.parts = none ∨ content.parts = some []) →
      _makeAlternativeRequestParse r = Except.error
        ("Response truncated: MAX_TOKENS limit reached with no content. Thoughts tokens: " ++
          toString (((r.usageMetadata.getD {}).thoughtsTokenCount).getD 0) ++
          ", Total tokens: " ++
          toString (((r.usageMetadata.getD {}).totalTokenCount).getD 0) ++
          ". Consider increasing maxOutputTokens significantly.")) := by
  constructor
  · intro p0 ps t hparts htext ht0 htrim
    simp [_makeAlternativeRequestParse, herr, hcands, hcontent, hfr, hparts, htext,
      ht0, htrim]
  · intro hp
    rcases hp with hp | hp <;>
      simp [_makeAlternativeRequestParse, herr, hcands, hcontent, hfr, hp]

/-- A truncated candidate with one non-empty text part. -/
def truncatedPartialCandidate : GeminiWireCandidate where
  content := some { parts := some [some { text := some "  partial answer  " }] }
  finishReason := some "MAX_TOKENS"

def truncatedPartialResponse : GeminiWireResponse where
  error := none
  candidates := some [truncatedPartialCandidate]
  usageMetadata := some truncatedUsage

/-- A truncated candidate with an empty `parts` array. -/
def truncatedEmptyCandidate : GeminiWireCandidate where
  content := some { parts := some [] }
  finishReason := some "MAX_TOKENS"

def truncatedEmptyResponse : GeminiWireResponse where
  error := none
  candidates := some [truncatedEmptyCandidate]
  usageMetadata := some truncatedUsage

/-- Witness for C6: the two branches of
`_makeAlternativeRequestParse_truncation_spec` at concrete responses. -/
theorem _makeAlternativeRequestParse_truncation_spec_witness :
    _makeAlternativeRequestParse truncatedPartialResponse =
      Except.ok (jsTrim "  partial answer  ") ∧
    _makeAlternativeRequestParse truncatedEmptyResponse = Except.error
      ("Response truncated: MAX_TOKENS limit reached with no content. Thoughts tokens: " ++
        toString (((truncatedEmptyResponse.usageMetadata.getD {}).thoughtsTokenCount).getD 0) ++
        ", Total tokens: " ++
        toString (((truncatedEmptyResponse.usageMetadata.getD {}).totalTokenCount).getD 0) ++
        ". Consider increasing maxOutputTokens significantly.") :=
  ⟨(_makeAlternativeRequestParse_truncation_spec truncatedPartialResponse
      truncatedPartialCandidate []
      { parts := some [some { text := some "  partial answer  " }] }
      (by decide) (by decide) (by decide) (by decide)).1
      { text := some "  partial answer  " } [] _ (by decide) (by decide)
      (by decide) (by decide),
   (_makeAlternativeRequestParse_truncation_spec truncatedEmptyResponse
      truncatedEmptyCandidate [] { parts := some [] }
      (by decide) (by decide) (by decide) (by decide)).2 (Or.inr (by decide))⟩

/-- C4: when the first attempt fails with a classification whose kind is
`AUTH_ERROR` or `INVALID_REQUEST_ERROR` (hence `isRetryable` false), the
orchestrator performs exactly one native attempt, raises the terminal
non-retryable error immediately, never invokes the alternative transport,
never sleeps, and leaves the pool (rotation index and exhausted set)
unchanged — regardless of the remaining retry budget. -/
theorem executeRequest_nonRetryable_spec
    (cfg : ExecConfig) (native alt : Nat → Except JsError String) (jitter : Nat → ℚ)
    (pool : GeminiPool) (e : JsError)
    (hm : 1 ≤ cfg.maxRetries)
    (h0 : 0 < pool.numModels)
    (hlt : pool.currentKeyIndex < pool.numModels)
    (hex : pool.currentKeyIndex ∉ pool.exhaustedKeys)
    (hnative : native 1 = Except.error e)
    (htype : (analyzeError e).type = AUTH_ERROR ∨
      (analyzeError e).type = INVALID_REQUEST_ERROR) :
    executeRequest cfg native alt jitter pool =
      { result := Except.error ("Gemini API error (non-retryable): " ++ e.message),
        pool := pool, nativeCalls := 1, altCalls := 0, delays := [] } := by
  have hret : (analyzeError e).isRetryable = false := by
    have h2 := (analyzeError_flags e).2
    rcases htype with h | h <;> simp [h2, h]
  obtain ⟨k, hk⟩ : ∃ k, cfg.maxRetries = k + 1 := ⟨cfg.maxRetries - 1, by omega⟩
  unfold executeRequest
  rw [hk]
  unfold executeRequestLoop
  rw [getNextModel_viable pool h0 hlt hex]
  simp only [hnative, typeofCurrentKeyIndexInCatch, Bool.and_false, Bool.false_and,
    Bool.if_false_left, hret]
  simp [hret]

/-- Witness for C4: a `401 unauthorized` failure on attempt 1, five
permitted retries, two credentials — one attempt, terminal error, untouched
pool. -/
theorem executeRequest_nonRetryable_spec_witness :
    executeRequest ⟨5, true⟩ (fun _ => Except.error (mkJsError "401 unauthorized"))
      (fun _ => Except.error (mkJsError "fetch failed")) (fun _ => 0) ⟨2, 0, ∅⟩ =
      { result := Except.error
          ("Gemini API error (non-retryable): " ++ (mkJsError "401 unauthorized").message),
        pool := ⟨2, 0, ∅⟩, nativeCalls := 1, altCalls := 0, delays := [] } :=
  executeRequest_nonRetryable_spec ⟨5, true⟩ _ _ _ ⟨2, 0, ∅⟩
    (mkJsError "401 unauthorized") (by decide) (by decide) (by decide) (by decide)
    rfl (Or.inl (by decide))

/-- The failing input for C1: every attempt fails with a quota/rate-limit
error while two credentials exist. -/
def rateLimitError : JsError :=
  { message := "429 Too Many Requests: quota exceeded", status := some 429,
    toStr := "Error: 429 Too Many Requests: quota exceeded" }

/-- The run of `executeRequest` on the C1 failing input: default retry
budget 5, HTTPS fallback enabled, a two-credential pool with nothing
exhausted, zero jitter. -/
def rateLimitRun : ExecTrace :=
  executeRequest ⟨5, true⟩ (fun _ => Except.error rateLimitError)
    (fun _ => Except.error (mkJsError "unused")) (fun _ => 0) ⟨2, 0, ∅⟩

/-- C1 (code bug): on a quota/rate-limit failure with two credentials, the
orchestrator does *not* mark the used credential exhausted and does *not*
move laterally: because `typeof currentKeyIndex !== 'undefined'` is false in
the `catch` block (the `const` lives in the `try` block), the quota branch is
dead.  The run consumes all five retry attempts, sleeps four backoff delays,
never touches the exhausted set, and ends in the terminal error — although
the error is classified `RATE_LIMIT_ERROR`. -/
theorem executeRequest_quotaScopeBug_run :
    rateLimitRun.result = Except.error
      "Gemini API failed after 5 attempts: 429 Too Many Requests: quota exceeded" ∧
    rateLimitRun.pool = ⟨2, 0, ∅⟩ ∧
    rateLimitRun.nativeCalls = 5 ∧
    rateLimitRun.altCalls = 0 ∧
    rateLimitRun.delays.length = 4 ∧
    (analyzeError rateLimitError).type = RATE_LIMIT_ERROR := by
  refine ⟨?_, ?_, ?_, ?_, ?_, ?_⟩ <;> rfl

/-- The prompt of the C5 scenario. -/
def stableSortPrompt : String :=
  "Which is a stable sort? A) QuickSort B) MergeSort C) HeapSort D) Bubble Sort"

/-- Counterexample for C5: on the stable-sort prompt with raw answer
`Answer: B`, the extractor returns the answer unchanged — the response does
not begin with `## Answer: B` and no option text is shown. -/
theorem extractMcqAnswer_sortPrompt_counterexample :
    extractMcqAnswer (some "Answer: B") (some stableSortPrompt) none =
      some "Answer: B" ∧
    listStartsWith ((extractMcqAnswer (some "Answer: B") (some stableSortPrompt)
      none).getD "").toList ("## Answer: B").toList = false := by
  constructor
  · rfl
  · rfl

/-- C5 (amended): the stable-sort prompt matches only one of the four
option-detection patterns (the inline `A) Text` pattern; the two keyword
patterns need the words option/answer/choice/letter in the prompt and the
line-anchored pattern needs an option at the start of a line), which is
below the required two, so the prompt is not classified as an MCQ and the
raw answer `Answer: B` is returned unchanged. -/
theorem extractMcqAnswer_sortPrompt_spec :
    mcqMatchCount stableSortPrompt.toList = 1 ∧
    extractMcqAnswer (some "Answer: B") (some stableSortPrompt) none =
      some "Answer: B" := by
  constructor
  · rfl
  · rfl
